import Mathlib

/-!
Verification of the quote-generator application (storage layer `database.py`,
service layer `quote_generator.py`, error taxonomy `exceptions.py`).

The SQLite-backed storage is embedded as an explicit state `DBState` holding the
three tables (`topics`, `quotes`, `activity_log`) as lists in insertion order,
the AUTOINCREMENT counters, and a strictly increasing clock standing for
`datetime.now()`.  Since the clock grows on every insert, `ORDER BY created_at
DESC` is modelled as the reverse of insertion order.  `ORDER BY RANDOM() LIMIT 1`
is modelled by an extra parameter `k : Nat` indexing uniformly into the list of
qualifying rows.  Python exceptions become an error type `QGError`; every
service operation returns its result together with the (possibly updated) state.
-/

namespace Lab3

/-- Errors of `exceptions.py`: `EmptyTopicException`, `EmptyContentException`,
`TopicNotFoundException` (carrying the topic name), `InvalidDataException`. -/
inductive QGError where
  | emptyTopic
  | emptyContent
  | topicNotFound (topic : String)
  | invalidData (msg : String)
deriving Repr, DecidableEq

/-- Python string truthiness: `not s` holds exactly when `s == ""`. -/
def pyTruthyStr (s : String) : Bool := s != ""

/-- Python truthiness of an `Optional[str]`: `None` and `""` are falsy. -/
def pyTruthyOptStr : Option String → Bool
  | none => false
  | some s => s != ""

/-- Python truthiness of an `Optional[int]`: `None` and `0` are falsy. -/
def pyTruthyOptNat : Option Nat → Bool
  | none => false
  | some n => n != 0

/-- Characters Python `str.strip()` removes (the CPython `Py_UNICODE_ISSPACE`
set): U+0009-U+000D, U+001C-U+001F, U+0020, U+0085, U+00A0, U+1680,
U+2000-U+200A, U+2028, U+2029, U+202F, U+205F, U+3000. -/
def pyIsSpace (c : Char) : Bool :=
  ([0x09, 0x0a, 0x0b, 0x0c, 0x0d, 0x1c, 0x1d, 0x1e, 0x1f, 0x20,
    0x85, 0xa0, 0x1680, 0x2028, 0x2029, 0x202f, 0x205f, 0x3000] : List Nat).contains
      c.toNat
  || (Nat.ble 0x2000 c.toNat && Nat.ble c.toNat 0x200a)

/-- Model of Python `str.strip()`: drop Python-whitespace characters from both
ends. -/
def pyStrip (s : String) : String :=
  ⟨((s.data.dropWhile pyIsSpace).reverse.dropWhile pyIsSpace).reverse⟩

/-- Model of the Python slice `s[:n]`: the first `n` characters of `s`. -/
def pyTake (n : Nat) (s : String) : String := ⟨s.data.take n⟩

/-- Row of the `topics` table: `id INTEGER PRIMARY KEY AUTOINCREMENT`,
`name TEXT UNIQUE NOT NULL`, `created_at TEXT NOT NULL`. -/
structure TopicRow where
  id : Nat
  name : String
  created_at : Nat
deriving Repr, DecidableEq

/-- Row of the `quotes` table: `id`, `topic_id` (declared as a foreign key to
`topics(id)`, but sqlite3 does not enforce foreign keys unless the pragma is
enabled, which the code never does), `content`, `created_at`. -/
structure QuoteRow where
  id : Nat
  topic_id : Nat
  content : String
  created_at : Nat
deriving Repr, DecidableEq

/-- Row of the `activity_log` table: `id`, `action`, `topic`, `content`,
`timestamp`. -/
structure ActivityRow where
  id : Nat
  action : String
  topic : String
  content : String
  timestamp : Nat
deriving Repr, DecidableEq

/-- Dictionary returned by `Database.get_quotes_by_topic`:
`{"id": ..., "content": ..., "date": ...}`. -/
structure QuoteView where
  id : Nat
  content : String
  date : Nat
deriving Repr, DecidableEq

/-- Dictionary returned by `Database.get_all_quotes` and
`Database.get_random_quote`: `{"id": ..., "content": ..., "date": ..., "topic": ...}`. -/
structure QuoteFull where
  id : Nat
  content : String
  date : Nat
  topic : String
deriving Repr, DecidableEq

/-- State of the SQLite database: the three tables in insertion order, the next
AUTOINCREMENT value of each, and the clock standing for `datetime.now()`. -/
structure DBState where
  topics : List TopicRow
  quotes : List QuoteRow
  activity_log : List ActivityRow
  seq_topics : Nat
  seq_quotes : Nat
  seq_activity : Nat
  clock : Nat
deriving Repr, DecidableEq

/-- Freshly created schema before any insert: empty tables, AUTOINCREMENT
counters at 1 (SQLite row ids start at 1). -/
def emptyDB : DBState := ⟨[], [], [], 1, 1, 1, 0⟩

namespace Database

/-- Embeds `Database.get_topic_id`: `SELECT id FROM topics WHERE name = ?`,
returning the id of the matching row or `None`. -/
def get_topic_id (s : DBState) (topic_name : String) : Option Nat :=
  (s.topics.find? fun t => t.name == topic_name).map TopicRow.id

/-- Embeds `Database.add_topic`: `INSERT INTO topics (name, created_at)`; on a
uniqueness violation (a row with this name exists) the failed insert changes
nothing and the existing id is looked up and returned. -/
def add_topic (s : DBState) (topic_name : String) : Nat × DBState :=
  match s.topics.find? fun t => t.name == topic_name with
  | some t => (t.id, s)
  | none =>
      (s.seq_topics,
       { s with
          topics := s.topics ++ [⟨s.seq_topics, topic_name, s.clock⟩],
          seq_topics := s.seq_topics + 1,
          clock := s.clock + 1 })

/-- Embeds `Database.add_quote`: `INSERT INTO quotes (topic_id, content,
created_at)` with the current timestamp; no foreign-key check is performed
(sqlite3 leaves `PRAGMA foreign_keys` off by default). -/
def add_quote (s : DBState) (topic_id : Nat) (content : String) : Nat × DBState :=
  (s.seq_quotes,
   { s with
      quotes := s.quotes ++ [⟨s.seq_quotes, topic_id, content, s.clock⟩],
      seq_quotes := s.seq_quotes + 1,
      clock := s.clock + 1 })

/-- Embeds `Database.get_quotes_by_topic`: join `quotes` to `topics` on
`topic_id = id`, keep rows whose topic name matches, `ORDER BY created_at DESC`
(the reverse of insertion order under the monotone clock). -/
def get_quotes_by_topic (s : DBState) (topic_name : String) : List QuoteView :=
  ((s.quotes.flatMap fun q =>
      (s.topics.filter fun t => q.topic_id == t.id && t.name == topic_name).map
        fun _ => QuoteView.mk q.id q.content q.created_at)).reverse

/-- Embeds `Database.get_all_quotes`: every quote joined with its topic name,
newest first. -/
def get_all_quotes (s : DBState) : List QuoteFull :=
  ((s.quotes.flatMap fun q =>
      (s.topics.filter fun t => q.topic_id == t.id).map
        fun t => QuoteFull.mk q.id q.content q.created_at t.name)).reverse

/-- Rows qualifying in `Database.get_random_quote`: the filtered join when a
truthy topic name is given (`if topic_name:` is false for `None` and `""`),
otherwise the join over all quotes. -/
def random_rows (s : DBState) (topic_name : Option String) : List QuoteFull :=
  if pyTruthyOptStr topic_name then
    s.quotes.flatMap fun q =>
      (s.topics.filter fun t => q.topic_id == t.id && t.name == topic_name.getD "").map
        fun t => QuoteFull.mk q.id q.content q.created_at t.name
  else
    s.quotes.flatMap fun q =>
      (s.topics.filter fun t => q.topic_id == t.id).map
        fun t => QuoteFull.mk q.id q.content q.created_at t.name

/-- Embeds `Database.get_random_quote`: `ORDER BY RANDOM() LIMIT 1` over the
qualifying rows, modelled as indexing by `k % length` for an arbitrary sampled
`k`; returns `None` when no row qualifies. -/
def get_random_quote (s : DBState) (topic_name : Option String) (k : Nat) :
    Option QuoteFull :=
  (random_rows s topic_name).get? (k % (random_rows s topic_name).length)

/-- Embeds `Database.add_activity_log`: `INSERT INTO activity_log (action,
topic, content, timestamp)` storing `content[:50]`. -/
def add_activity_log (s : DBState) (action topic content : String) : DBState :=
  { s with
     activity_log :=
       s.activity_log ++ [⟨s.seq_activity, action, topic, pyTake 50 content, s.clock⟩],
     seq_activity := s.seq_activity + 1,
     clock := s.clock + 1 }

/-- Embeds `Database.get_activity_log`: most recent entries first, at most
`limit` of them. -/
def get_activity_log (s : DBState) (limit : Nat) : List ActivityRow :=
  s.activity_log.reverse.take limit

end Database

namespace QuoteGenerator

/-- Embeds `QuoteGenerator.get_quotes_by_topic`: raises `EmptyTopic` for a
falsy (empty) topic; otherwise queries the quotes and, when the list is empty,
raises `TopicNotFound` unless the topic row exists.  Only `SELECT` statements
run, so the state is returned unchanged on every path. -/
def get_quotes_by_topic (s : DBState) (topic : String) :
    Except QGError (List QuoteView) × DBState :=
  if topic = "" then (.error .emptyTopic, s)
  else if Database.get_quotes_by_topic s topic = [] then
    if pyTruthyOptNat (Database.get_topic_id s topic) then
      (.ok (Database.get_quotes_by_topic s topic), s)
    else (.error (.topicNotFound topic), s)
  else (.ok (Database.get_quotes_by_topic s topic), s)

/-- Resolve-or-create step of `QuoteGenerator.add_quote`: `topic_id =
self.db.get_topic_id(topic); if not topic_id: topic_id = self.db.add_topic(topic)`
(a looked-up id of `0` would be falsy in Python, hence the truthiness test). -/
def resolve_topic_id (s : DBState) (t : String) : Nat × DBState :=
  let tid0 := Database.get_topic_id s t
  if pyTruthyOptNat tid0 then (tid0.getD 0, s) else Database.add_topic s t

/-- Embeds `QuoteGenerator.add_quote`: validation first (`EmptyTopic`,
`EmptyContent`), then both arguments are stripped, the topic id is resolved or
created, the quote is inserted, and an `add` activity entry is appended. -/
def add_quote (s : DBState) (topic content : String) :
    Except QGError Unit × DBState :=
  if topic = "" ∨ pyStrip topic = "" then (.error .emptyTopic, s)
  else if content = "" ∨ pyStrip content = "" then (.error .emptyContent, s)
  else
    (.ok (),
     Database.add_activity_log
       (Database.add_quote (resolve_topic_id s (pyStrip topic)).2
          (resolve_topic_id s (pyStrip topic)).1 (pyStrip content)).2
       "add" (pyStrip topic) (pyStrip content))

/-- Embeds `QuoteGenerator.get_random_quote`: delegate to the storage layer;
when a quote comes back, append a `view` activity entry.  The `dict.get`
fallback `topic or "all"` is dead code because the result dictionary always
carries a `topic` key, so the logged topic is the quote's own. -/
def get_random_quote (s : DBState) (topic : Option String) (k : Nat) :
    Option QuoteFull × DBState :=
  match Database.get_random_quote s topic k with
  | some q => (some q, Database.add_activity_log s "view" q.topic q.content)
  | none => (none, s)

end QuoteGenerator

/-- Referential-integrity invariant of the schema: every quote's `topic_id` is
the id of some row of the `topics` table. -/
def quotesFKb (s : DBState) : Bool :=
  s.quotes.all fun q => s.topics.any fun t => t.id == q.topic_id

/-- Exposed service operations of `QuoteGenerator` (the randomness of a view is
the sampling index `k`). -/
inductive ServiceOp where
  | addQuote (topic content : String)
  | getQuotesByTopic (topic : String)
  | getRandomQuote (topic : Option String) (k : Nat)
  | getTopics
  | getActivityLog
  | getActivityStats

/-- State transition of one service operation.  `get_topics`,
`activity_log` and `get_activity_stats` execute only `SELECT` statements
(`database.py` lines 156-166, 301-349), so they leave the state unchanged. -/
def applyOp (s : DBState) : ServiceOp → DBState
  | .addQuote t c => (QuoteGenerator.add_quote s t c).2
  | .getQuotesByTopic t => (QuoteGenerator.get_quotes_by_topic s t).2
  | .getRandomQuote t k => (QuoteGenerator.get_random_quote s t k).2
  | .getTopics => s
  | .getActivityLog => s
  | .getActivityStats => s

/-- State after a whole sequence of service operations. -/
def runOps (s : DBState) (ops : List ServiceOp) : DBState := ops.foldl applyOp s

/-- Fixed seed content of `Database.init_sample_data`. -/
def sample_data : List (String × List String) :=
  [("Наука",
    ["Наука - это организованное знание.",
     "В науке нет широкой столбовой дороги."]),
   ("Философия",
    ["Познай самого себя.",
     "Я знаю, что ничего не знаю."]),
   ("Мотивация",
    ["Успех - это способность идти от неудачи к неудаче, не теряя энтузиазма."])]

/-- Seeding of one sample topic: `add_topic` then `add_quote` for each quote. -/
def seedTopic (s : DBState) (p : String × List String) : DBState :=
  let r := Database.add_topic s p.1
  p.2.foldl (fun st c => (Database.add_quote st r.1 c).2) r.2

/-- State produced by `Database.init_database` on a fresh file: the schema is
created empty and then seeded with the sample data. -/
def initDB : DBState := sample_data.foldl seedTopic emptyDB

/-- Concrete 60-character string used to exercise the activity-log truncation. -/
def str60 : String := ⟨List.replicate 60 'a'⟩

/-- Concrete state with one topic `"a"` (id 1) owning one quote, used as a
witness input. -/
def oneQuoteDB : DBState := ⟨[⟨1, "a", 0⟩], [⟨1, 1, "c", 1⟩], [], 2, 2, 1, 2⟩

lemma pyStrip_empty : pyStrip "" = "" := rfl

lemma not_blank_cond {s : String} (h : pyStrip s ≠ "") : ¬(s = "" ∨ pyStrip s = "") := by
  rintro (rfl | h1)
  · exact h rfl
  · exact h h1

lemma get_quotes_state (s : DBState) (T : String) :
    (QuoteGenerator.get_quotes_by_topic s T).2 = s := by
  unfold QuoteGenerator.get_quotes_by_topic
  split
  · rfl
  · split
    · split
      · rfl
      · rfl
    · rfl

/-- C3: `QuoteGenerator.add_quote` raises `EmptyTopic` whenever the topic is
empty or whitespace-only (for any content), and raises `EmptyContent` whenever
the topic is non-blank but the content is empty or whitespace-only. -/
theorem C3_add_quote_validation (s : DBState) (topic content : String) :
    (pyStrip topic = "" →
      QuoteGenerator.add_quote s topic content = (.error .emptyTopic, s)) ∧
    (pyStrip topic ≠ "" → pyStrip content = "" →
      QuoteGenerator.add_quote s topic content = (.error .emptyContent, s)) := by
  constructor
  · intro h
    unfold QuoteGenerator.add_quote
    rw [if_pos (Or.inr h)]
  · intro ht hc
    unfold QuoteGenerator.add_quote
    rw [if_neg (not_blank_cond ht), if_pos (Or.inr hc)]

/-- Witness for C3 at blank topic `"   "` and blank content `"  "`. -/
theorem C3_add_quote_validation_witness :
    pyStrip "   " = "" ∧ pyStrip "Тема" ≠ "" ∧ pyStrip "  " = "" ∧
    QuoteGenerator.add_quote emptyDB "   " "x" = (.error .emptyTopic, emptyDB) ∧
    QuoteGenerator.add_quote emptyDB "Тема" "  " = (.error .emptyContent, emptyDB) :=
  ⟨by decide, by decide, by decide,
   (C3_add_quote_validation emptyDB "   " "x").1 (by decide),
   (C3_add_quote_validation emptyDB "Тема" "  ").2 (by decide) (by decide)⟩

/-- C4: calling `Database.add_topic` twice with the same name returns the same
identifier both times, and the second call changes nothing (no second row). -/
theorem C4_add_topic_idempotent (s : DBState) (N : String) :
    (Database.add_topic (Database.add_topic s N).2 N).1 = (Database.add_topic s N).1 ∧
    (Database.add_topic (Database.add_topic s N).2 N).2 = (Database.add_topic s N).2 := by
  unfold Database.add_topic
  cases hF : s.topics.find? (fun t => t.name == N) with
  | some tr => simp [hF]
  | none =>
      simp [hF, List.find?_append]

/-- C5: the activity entry stored by `Database.add_activity_log` has a content
field equal to the first 50 characters of the given content; when the content
is longer than 50 characters the stored content has length exactly 50 and
differs from the original. -/
theorem C5_activity_truncation (s : DBState) (action topic content : String) :
    ∃ e, (Database.add_activity_log s action topic content).activity_log
          = s.activity_log ++ [e] ∧
      e.content.data = content.data.take 50 ∧
      (50 < content.length → e.content.length = 50 ∧ e.content ≠ content) := by
  refine ⟨⟨s.seq_activity, action, topic, pyTake 50 content, s.clock⟩, rfl, rfl, ?_⟩
  intro h
  have h' : 50 ≤ content.data.length := le_of_lt h
  have hlen : (pyTake 50 content).length = 50 := by
    show (content.data.take 50).length = 50
    rw [List.length_take]
    exact min_eq_left h'
  refine ⟨hlen, fun heq => ?_⟩
  have h2 := congrArg String.length heq
  rw [hlen] at h2
  omega

/-- Witness for C5 at a 60-character content string. -/
theorem C5_activity_truncation_witness :
    50 < str60.length ∧
    ∃ e, (Database.add_activity_log emptyDB "add" "t" str60).activity_log
          = emptyDB.activity_log ++ [e] ∧
      e.content.data = str60.data.take 50 ∧
      e.content.length = 50 ∧ e.content ≠ str60 := by
  obtain ⟨e, h1, h2, h3⟩ := C5_activity_truncation emptyDB "add" "t" str60
  have hlen : 50 < str60.length := by decide
  obtain ⟨h4, h5⟩ := h3 hlen
  exact ⟨hlen, e, h1, h2, h4, h5⟩

/-- C6: when `add_quote` raises a validation error (`EmptyTopic` or
`EmptyContent`), or `get_quotes_by_topic` raises `EmptyTopic`, the state is
exactly as it was before the call: no storage mutation occurs. -/
theorem C6_failfast (s : DBState) (topic content T : String) :
    (((QuoteGenerator.add_quote s topic content).1 = .error .emptyTopic ∨
      (QuoteGenerator.add_quote s topic content).1 = .error .emptyContent) →
      (QuoteGenerator.add_quote s topic content).2 = s) ∧
    ((QuoteGenerator.get_quotes_by_topic s T).1 = .error .emptyTopic →
      (QuoteGenerator.get_quotes_by_topic s T).2 = s) := by
  refine ⟨?_, fun _ => get_quotes_state s T⟩
  intro h
  by_cases h1 : topic = "" ∨ pyStrip topic = ""
  · unfold QuoteGenerator.add_quote
    rw [if_pos h1]
  · by_cases h2 : content = "" ∨ pyStrip content = ""
    · unfold QuoteGenerator.add_quote
      rw [if_neg h1, if_pos h2]
    · exfalso
      have hok : (QuoteGenerator.add_quote s topic content).1 = .ok () := by
        unfold QuoteGenerator.add_quote
        rw [if_neg h1, if_neg h2]
      rcases h with h | h <;> rw [hok] at h <;> exact Except.noConfusion h

/-- Witness for C6 at an empty topic, for both operations. -/
theorem C6_failfast_witness :
    ((QuoteGenerator.add_quote emptyDB "" "x").1 = .error .emptyTopic ∨
     (QuoteGenerator.add_quote emptyDB "" "x").1 = .error .emptyContent) ∧
    (QuoteGenerator.add_quote emptyDB "" "x").2 = emptyDB ∧
    (QuoteGenerator.get_quotes_by_topic emptyDB "").1 = .error .emptyTopic ∧
    (QuoteGenerator.get_quotes_by_topic emptyDB "").2 = emptyDB :=
  ⟨Or.inl rfl,
   (C6_failfast emptyDB "" "x" "").1 (Or.inl rfl),
   rfl,
   (C6_failfast emptyDB "" "x" "").2 rfl⟩

lemma add_activity_log_quotes (s : DBState) (a t c : String) :
    (Database.add_activity_log s a t c).quotes = s.quotes := rfl

lemma add_activity_log_topics (s : DBState) (a t c : String) :
    (Database.add_activity_log s a t c).topics = s.topics := rfl

lemma add_quote_quotes (s : DBState) (tid : Nat) (c : String) :
    (Database.add_quote s tid c).2.quotes
      = s.quotes ++ [⟨s.seq_quotes, tid, c, s.clock⟩] := rfl

lemma add_quote_topics (s : DBState) (tid : Nat) (c : String) :
    (Database.add_quote s tid c).2.topics = s.topics := rfl

lemma mem_get_quotes_of {s : DBState} {name : String} {q : QuoteRow} {t : TopicRow}
    (hq : q ∈ s.quotes) (ht : t ∈ s.topics) (hid : q.topic_id = t.id)
    (hn : t.name = name) :
    QuoteView.mk q.id q.content q.created_at ∈ Database.get_quotes_by_topic s name := by
  unfold Database.get_quotes_by_topic
  rw [List.mem_reverse, List.mem_flatMap]
  refine ⟨q, hq, List.mem_map.mpr ⟨t, List.mem_filter.mpr ⟨ht, ?_⟩, rfl⟩⟩
  simp [hid, hn]

lemma get_quotes_eq_nil {s : DBState} {name : String}
    (h : ∀ q ∈ s.quotes, ∀ t ∈ s.topics, q.topic_id = t.id → t.name ≠ name) :
    Database.get_quotes_by_topic s name = [] := by
  unfold Database.get_quotes_by_topic
  rw [List.reverse_eq_nil_iff, List.eq_nil_iff_forall_not_mem]
  intro v hv
  rw [List.mem_flatMap] at hv
  obtain ⟨q, hq, hv⟩ := hv
  rw [List.mem_map] at hv
  obtain ⟨t, htf, _⟩ := hv
  rw [List.mem_filter] at htf
  obtain ⟨ht, hp⟩ := htf
  simp only [Bool.and_eq_true, beq_iff_eq] at hp
  exact h q hq t ht hp.1 hp.2

lemma topic_found {s : DBState} {T : String} (h : ∃ t ∈ s.topics, t.name = T) :
    ∃ tr, s.topics.find? (fun t => t.name == T) = some tr ∧
      tr ∈ s.topics ∧ tr.name = T := by
  obtain ⟨t0, ht0, hn0⟩ := h
  have hs : (s.topics.find? (fun t => t.name == T)).isSome :=
    List.find?_isSome.mpr ⟨t0, ht0, by simp [hn0]⟩
  obtain ⟨tr, htr⟩ := Option.isSome_iff_exists.mp hs
  have hp : tr.name = T := by
    have h2 := List.find?_some htr
    simp only [beq_iff_eq] at h2
    exact h2
  exact ⟨tr, htr, List.mem_of_find?_eq_some htr, hp⟩

lemma topic_not_found {s : DBState} {T : String} (h : ∀ t ∈ s.topics, t.name ≠ T) :
    Database.get_topic_id s T = none := by
  have hn : s.topics.find? (fun t => t.name == T) = none :=
    List.find?_eq_none.mpr (fun t ht => by simp [h t ht])
  unfold Database.get_topic_id
  rw [hn]
  rfl

lemma lookup_topic_not_found {s : DBState} {T : String} (hT : T ≠ "")
    (hno : ∀ t ∈ s.topics, t.name ≠ T) :
    QuoteGenerator.get_quotes_by_topic s T = (.error (.topicNotFound T), s) := by
  have hnil := get_quotes_eq_nil (fun q _ t ht _ => hno t ht)
  have htid := topic_not_found hno
  have hfalsy : ¬(pyTruthyOptNat (Database.get_topic_id s T) = true) := by
    rw [htid]
    exact Bool.false_ne_true
  unfold QuoteGenerator.get_quotes_by_topic
  rw [if_neg hT, if_pos hnil, if_neg hfalsy]

lemma resolve_topic_id_spec (s : DBState) (t : String) :
    ∃ tr : TopicRow,
      (QuoteGenerator.resolve_topic_id s t).1 = tr.id ∧
      tr.name = t ∧
      tr ∈ (QuoteGenerator.resolve_topic_id s t).2.topics ∧
      ((QuoteGenerator.resolve_topic_id s t).2.topics = s.topics ∨
        (QuoteGenerator.resolve_topic_id s t).2.topics = s.topics ++ [tr]) ∧
      (QuoteGenerator.resolve_topic_id s t).2.quotes = s.quotes ∧
      (QuoteGenerator.resolve_topic_id s t).2.seq_quotes = s.seq_quotes := by
  unfold QuoteGenerator.resolve_topic_id Database.get_topic_id
  cases hF : s.topics.find? (fun x => x.name == t) with
  | some tr =>
      have hname : tr.name = t := by
        have h2 := List.find?_some hF
        simp only [beq_iff_eq] at h2
        exact h2
      have hmem := List.mem_of_find?_eq_some hF
      refine ⟨tr, ?_⟩
      by_cases h0 : tr.id = 0
      · simp [hF, pyTruthyOptNat, h0, Database.add_topic, hmem, hname]
      · simp [hF, pyTruthyOptNat, h0, hmem, hname]
  | none =>
      refine ⟨⟨s.seq_topics, t, s.clock⟩, ?_⟩
      simp [hF, pyTruthyOptNat, Database.add_topic]

lemma add_quote_ok_state {s : DBState} {topic content : String}
    (ht : pyStrip topic ≠ "") (hc : pyStrip content ≠ "") :
    QuoteGenerator.add_quote s topic content =
      (.ok (),
       Database.add_activity_log
         (Database.add_quote (QuoteGenerator.resolve_topic_id s (pyStrip topic)).2
            (QuoteGenerator.resolve_topic_id s (pyStrip topic)).1 (pyStrip content)).2
         "add" (pyStrip topic) (pyStrip content)) := by
  unfold QuoteGenerator.add_quote
  rw [if_neg (not_blank_cond ht), if_neg (not_blank_cond hc)]

lemma add_quote_ok_spec {s : DBState} {topic content : String}
    (ht : pyStrip topic ≠ "") (hc : pyStrip content ≠ "") :
    ∃ (tr : TopicRow) (newq : QuoteRow),
      (QuoteGenerator.add_quote s topic content).1 = .ok () ∧
      (QuoteGenerator.add_quote s topic content).2.quotes = s.quotes ++ [newq] ∧
      ((QuoteGenerator.add_quote s topic content).2.topics = s.topics ∨
        (QuoteGenerator.add_quote s topic content).2.topics = s.topics ++ [tr]) ∧
      tr ∈ (QuoteGenerator.add_quote s topic content).2.topics ∧
      newq.topic_id = tr.id ∧ newq.content = pyStrip content ∧
      tr.name = pyStrip topic := by
  obtain ⟨tr, h1, h2, h3, h4, h5, h6⟩ := resolve_topic_id_spec s (pyStrip topic)
  rw [add_quote_ok_state ht hc]
  refine ⟨tr,
    ⟨(QuoteGenerator.resolve_topic_id s (pyStrip topic)).2.seq_quotes, tr.id, pyStrip content,
      (QuoteGenerator.resolve_topic_id s (pyStrip topic)).2.clock⟩, rfl, ?_, ?_, ?_, rfl, rfl, h2⟩
  · rw [add_activity_log_quotes, add_quote_quotes, h5, h1]
  · rw [add_activity_log_topics, add_quote_topics]
    exact h4
  · rw [add_activity_log_topics, add_quote_topics]
    exact h3

/-- C2: for a topic that exists in the topics table but has zero quotes,
`QuoteGenerator.get_quotes_by_topic` returns the empty sequence without error;
for a non-empty topic name with no topic record at all, it fails with
`TopicNotFound` carrying that name.  (The hypothesis that no stored topic has
id `0` holds in every reachable state, since SQLite row ids start at 1.) -/
theorem C2_lookup_semantics (s : DBState) (T : String) (hT : T ≠ "")
    (hids : ∀ t ∈ s.topics, t.id ≠ 0) :
    ((∃ t ∈ s.topics, t.name = T) →
      (∀ q ∈ s.quotes, ∀ t ∈ s.topics, q.topic_id = t.id → t.name ≠ T) →
      QuoteGenerator.get_quotes_by_topic s T = (.ok [], s)) ∧
    ((∀ t ∈ s.topics, t.name ≠ T) →
      QuoteGenerator.get_quotes_by_topic s T = (.error (.topicNotFound T), s)) := by
  constructor
  · intro hex hnoq
    obtain ⟨tr, hfind, htr, hname⟩ := topic_found hex
    have hnil := get_quotes_eq_nil hnoq
    have htid : Database.get_topic_id s T = some tr.id := by
      unfold Database.get_topic_id
      rw [hfind]
      rfl
    have htruthy : pyTruthyOptNat (Database.get_topic_id s T) = true := by
      rw [htid]
      simp [pyTruthyOptNat, hids tr htr]
    unfold QuoteGenerator.get_quotes_by_topic
    rw [if_neg hT, if_pos hnil, if_pos htruthy, hnil]
  · exact fun hno => lookup_topic_not_found hT hno

/-- Witness for C2: in a state with a quoteless topic `"a"` (id 1) the lookup
of `"a"` yields the empty list and the lookup of `"b"` fails with
`TopicNotFound "b"`. -/
theorem C2_lookup_semantics_witness :
    QuoteGenerator.get_quotes_by_topic ⟨[⟨1, "a", 0⟩], [], [], 2, 1, 1, 1⟩ "a"
      = (.ok [], ⟨[⟨1, "a", 0⟩], [], [], 2, 1, 1, 1⟩) ∧
    QuoteGenerator.get_quotes_by_topic ⟨[⟨1, "a", 0⟩], [], [], 2, 1, 1, 1⟩ "b"
      = (.error (.topicNotFound "b"), ⟨[⟨1, "a", 0⟩], [], [], 2, 1, 1, 1⟩) :=
  ⟨(C2_lookup_semantics ⟨[⟨1, "a", 0⟩], [], [], 2, 1, 1, 1⟩ "a" (by decide)
      (by decide)).1 ⟨⟨1, "a", 0⟩, by decide, rfl⟩ (by intro q hq; cases hq),
   (C2_lookup_semantics ⟨[⟨1, "a", 0⟩], [], [], 2, 1, 1, 1⟩ "b" (by decide)
      (by decide)).2 (by decide)⟩

/-- C1 (amended): for non-blank `T` and non-blank `C`, `add_quote T C` succeeds
and `get_quotes_by_topic` on the trimmed topic yields a sequence containing a
record whose content equals the trimmed `C` exactly; the service strips leading
and trailing whitespace from both arguments before storage. -/
theorem C1_add_then_get (s : DBState) (T C : String)
    (hT : pyStrip T ≠ "") (hC : pyStrip C ≠ "") :
    (QuoteGenerator.add_quote s T C).1 = .ok () ∧
    ∃ l, (QuoteGenerator.get_quotes_by_topic
            (QuoteGenerator.add_quote s T C).2 (pyStrip T)).1 = .ok l ∧
      ∃ r ∈ l, r.content = pyStrip C := by
  obtain ⟨tr, newq, hok, hquotes, htopics, htr, hqt, hqc, hname⟩ :=
    add_quote_ok_spec (s := s) hT hC
  refine ⟨hok, ?_⟩
  have hqmem : newq ∈ (QuoteGenerator.add_quote s T C).2.quotes := by
    rw [hquotes]
    exact List.mem_append_right _ (List.mem_singleton.mpr rfl)
  have hview : QuoteView.mk newq.id newq.content newq.created_at
      ∈ Database.get_quotes_by_topic (QuoteGenerator.add_quote s T C).2 (pyStrip T) :=
    mem_get_quotes_of hqmem htr hqt hname
  have hne : Database.get_quotes_by_topic (QuoteGenerator.add_quote s T C).2 (pyStrip T)
      ≠ [] := List.ne_nil_of_mem hview
  refine ⟨_, ?_, ⟨_, hview, hqc⟩⟩
  unfold QuoteGenerator.get_quotes_by_topic
  rw [if_neg hT, if_neg hne]

/-- Counterexample to C1 as stated: with topic `" t "` and content `" hi "`,
the add succeeds but the follow-up lookup with the same topic string fails with
`TopicNotFound` (the quote was stored under the trimmed topic `"t"`), and the
lookup of `"t"` returns the trimmed content `"hi"`, not `" hi "`. -/
theorem C1_counterexample :
    (QuoteGenerator.add_quote emptyDB " t " " hi ").1 = .ok () ∧
    QuoteGenerator.get_quotes_by_topic
        (QuoteGenerator.add_quote emptyDB " t " " hi ").2 " t "
      = (.error (.topicNotFound " t "), (QuoteGenerator.add_quote emptyDB " t " " hi ").2) ∧
    (QuoteGenerator.get_quotes_by_topic
        (QuoteGenerator.add_quote emptyDB " t " " hi ").2 "t").1
      = .ok [⟨1, "hi", 1⟩] :=
  ⟨rfl, rfl, rfl⟩

/-- Witness for C1 at topic `" t "` and content `" hi "` over the empty store. -/
theorem C1_add_then_get_witness :
    pyStrip " t " ≠ "" ∧ pyStrip " hi " ≠ "" ∧
    ((QuoteGenerator.add_quote emptyDB " t " " hi ").1 = .ok () ∧
     ∃ l, (QuoteGenerator.get_quotes_by_topic
             (QuoteGenerator.add_quote emptyDB " t " " hi ").2 (pyStrip " t ")).1 = .ok l ∧
       ∃ r ∈ l, r.content = pyStrip " hi ") :=
  ⟨by decide, by decide,
   C1_add_then_get emptyDB " t " " hi " (by decide) (by decide)⟩

/-- C7 (amended): `EmptyTopic` is raised by `add_quote` for an empty or
whitespace-only topic, but the lookup raises it only for the empty string:
for a non-empty whitespace-only `W`, `get_quotes_by_topic W` never raises
`EmptyTopic` (`if not topic:` is false) and raises `TopicNotFound W` when no
topic named `W` exists. -/
theorem C7_empty_topic_scope (s : DBState) (W : String) (hW : W ≠ "")
    (hws : pyStrip W = "") :
    (∀ c : String, (QuoteGenerator.add_quote s W c).1 = .error .emptyTopic) ∧
    (QuoteGenerator.get_quotes_by_topic s W).1 ≠ .error .emptyTopic ∧
    ((∀ t ∈ s.topics, t.name ≠ W) →
      QuoteGenerator.get_quotes_by_topic s W = (.error (.topicNotFound W), s)) := by
  refine ⟨?_, ?_, fun hno => lookup_topic_not_found hW hno⟩
  · intro c
    unfold QuoteGenerator.add_quote
    rw [if_pos (Or.inr hws)]
  · unfold QuoteGenerator.get_quotes_by_topic
    rw [if_neg hW]
    split
    · split
      · intro h
        exact Except.noConfusion h
      · intro h
        have h2 : QGError.topicNotFound W = QGError.emptyTopic := by
          injection h
        exact QGError.noConfusion h2
    · intro h
      exact Except.noConfusion h

/-- Counterexample to C7 as stated: on the empty store,
`get_quotes_by_topic " "` raises `TopicNotFound " "`, not `EmptyTopic`. -/
theorem C7_counterexample :
    QuoteGenerator.get_quotes_by_topic emptyDB " "
      = (.error (.topicNotFound " "), emptyDB) ∧
    (QuoteGenerator.get_quotes_by_topic emptyDB " ").1 ≠ .error .emptyTopic := by
  refine ⟨rfl, ?_⟩
  intro h
  have h1 : (Except.error (QGError.topicNotFound " ")
      : Except QGError (List QuoteView)) = .error .emptyTopic := h
  have h2 : QGError.topicNotFound " " = QGError.emptyTopic := by
    injection h1
  exact QGError.noConfusion h2

/-- Witness for C7 at the whitespace-only topic `" "` over the empty store. -/
theorem C7_empty_topic_scope_witness :
    (" " : String) ≠ "" ∧ pyStrip " " = "" ∧
    (QuoteGenerator.add_quote emptyDB " " "x").1 = .error .emptyTopic ∧
    QuoteGenerator.get_quotes_by_topic emptyDB " "
      = (.error (.topicNotFound " "), emptyDB) := by
  have h := C7_empty_topic_scope emptyDB " " (by decide) (by decide)
  exact ⟨by decide, by decide, h.1 "x",
    h.2.2 (fun t ht => absurd ht (List.not_mem_nil t))⟩

lemma qg_random_fst (s : DBState) (t : Option String) (k : Nat) :
    (QuoteGenerator.get_random_quote s t k).1 = Database.get_random_quote s t k := by
  unfold QuoteGenerator.get_random_quote
  cases h : Database.get_random_quote s t k <;> simp [h]

lemma mem_random_rows_topic {s : DBState} {T : String} {q : QuoteRow} {t : TopicRow}
    (hT : T ≠ "") (hq : q ∈ s.quotes) (ht : t ∈ s.topics)
    (hid : q.topic_id = t.id) (hn : t.name = T) :
    QuoteFull.mk q.id q.content q.created_at t.name ∈ Database.random_rows s (some T) := by
  unfold Database.random_rows
  rw [if_pos (by simp [pyTruthyOptStr, hT] : pyTruthyOptStr (some T) = true)]
  rw [List.mem_flatMap]
  exact ⟨q, hq, List.mem_map.mpr ⟨t, List.mem_filter.mpr ⟨ht, by simp [hid, hn]⟩, rfl⟩⟩

lemma random_rows_topic_nil {s : DBState} {T : String} (hT : T ≠ "")
    (h : ∀ q ∈ s.quotes, ∀ t ∈ s.topics, q.topic_id = t.id → t.name ≠ T) :
    Database.random_rows s (some T) = [] := by
  unfold Database.random_rows
  rw [if_pos (by simp [pyTruthyOptStr, hT] : pyTruthyOptStr (some T) = true)]
  rw [List.eq_nil_iff_forall_not_mem]
  intro v hv
  rw [List.mem_flatMap] at hv
  obtain ⟨q, hq, hv⟩ := hv
  rw [List.mem_map] at hv
  obtain ⟨t, htf, _⟩ := hv
  rw [List.mem_filter] at htf
  obtain ⟨ht, hp⟩ := htf
  simp only [Option.getD_some, Bool.and_eq_true, beq_iff_eq] at hp
  exact h q hq t ht hp.1 hp.2

lemma mem_random_rows_all {s : DBState} {q : QuoteRow} {t : TopicRow}
    (hq : q ∈ s.quotes) (ht : t ∈ s.topics) (hid : q.topic_id = t.id) :
    QuoteFull.mk q.id q.content q.created_at t.name ∈ Database.random_rows s none := by
  unfold Database.random_rows
  rw [if_neg (by decide : ¬(pyTruthyOptStr none = true))]
  rw [List.mem_flatMap]
  exact ⟨q, hq, List.mem_map.mpr ⟨t, List.mem_filter.mpr ⟨ht, by simp [hid]⟩, rfl⟩⟩

lemma get?_mod_isSome {α : Type} (l : List α) (k : Nat) (h : l ≠ []) :
    (l.get? (k % l.length)).isSome = true := by
  rw [Option.isSome_iff_ne_none]
  intro hn
  rw [List.get?_eq_none] at hn
  exact absurd hn (not_le.mpr (Nat.mod_lt k (List.length_pos.mpr h)))

/-- C8: `get_random_quote` never signals absence by an error.  For a non-empty
topic `T` owning at least one quote the result is a record, never `None`; for a
topic with no quotes (or no record at all) the result is `None`; with no topic
it samples the join of all quotes and, in any state satisfying referential
integrity, returns `None` exactly when no quotes exist at all. -/
theorem C8_random_quote_absence (s : DBState) (T : String) (k : Nat) (hT : T ≠ "") :
    ((∃ q ∈ s.quotes, ∃ t ∈ s.topics, q.topic_id = t.id ∧ t.name = T) →
      ((QuoteGenerator.get_random_quote s (some T) k).1).isSome = true) ∧
    ((∀ q ∈ s.quotes, ∀ t ∈ s.topics, q.topic_id = t.id → t.name ≠ T) →
      (QuoteGenerator.get_random_quote s (some T) k).1 = none) ∧
    (quotesFKb s = true →
      ((QuoteGenerator.get_random_quote s none k).1 = none ↔ s.quotes = [])) := by
  refine ⟨?_, ?_, ?_⟩
  · rintro ⟨q, hq, t, ht, hid, hn⟩
    rw [qg_random_fst]
    unfold Database.get_random_quote
    exact get?_mod_isSome _ k (List.ne_nil_of_mem (mem_random_rows_topic hT hq ht hid hn))
  · intro h
    rw [qg_random_fst]
    unfold Database.get_random_quote
    rw [random_rows_topic_nil hT h]
    rfl
  · intro hfk
    have hfk' : s.quotes.all (fun q => s.topics.any fun t => t.id == q.topic_id)
        = true := hfk
    rw [qg_random_fst]
    unfold Database.get_random_quote
    constructor
    · intro hnone
      by_contra hne
      obtain ⟨q, hq⟩ := List.exists_mem_of_ne_nil s.quotes hne
      obtain ⟨t, ht, hbeq⟩ := List.any_eq_true.mp (List.all_eq_true.mp hfk' q hq)
      have hid : q.topic_id = t.id := by
        have hb : t.id = q.topic_id := by simpa using hbeq
        exact hb.symm
      have hne2 := List.ne_nil_of_mem (mem_random_rows_all hq ht hid)
      have h2 := get?_mod_isSome (Database.random_rows s none) k hne2
      rw [hnone] at h2
      simp at h2
    · intro hq
      have hrows : Database.random_rows s none = [] := by
        unfold Database.random_rows
        rw [if_neg (by decide : ¬(pyTruthyOptStr none = true)), hq]
        rfl
      rw [hrows]
      rfl

/-- Witness for C8 over a one-topic one-quote store: topic `"a"` yields a
record, topic `"b"` yields `None`, and with no topic `None` is impossible. -/
theorem C8_random_quote_absence_witness :
    ("a" : String) ≠ "" ∧ ("b" : String) ≠ "" ∧
    (∃ q ∈ oneQuoteDB.quotes, ∃ t ∈ oneQuoteDB.topics,
       q.topic_id = t.id ∧ t.name = "a") ∧
    quotesFKb oneQuoteDB = true ∧
    ((QuoteGenerator.get_random_quote oneQuoteDB (some "a") 0).1).isSome = true ∧
    (QuoteGenerator.get_random_quote oneQuoteDB (some "b") 0).1 = none ∧
    ((QuoteGenerator.get_random_quote oneQuoteDB none 0).1 = none ↔
      oneQuoteDB.quotes = []) := by
  have ha := C8_random_quote_absence oneQuoteDB "a" 0 (by decide)
  have hb := C8_random_quote_absence oneQuoteDB "b" 0 (by decide)
  have hex : ∃ q ∈ oneQuoteDB.quotes, ∃ t ∈ oneQuoteDB.topics,
      q.topic_id = t.id ∧ t.name = "a" :=
    ⟨⟨1, 1, "c", 1⟩, by decide, ⟨1, "a", 0⟩, by decide, rfl, rfl⟩
  exact ⟨by decide, by decide, hex, by decide, ha.1 hex, hb.2.1 (by decide),
    ha.2.2 (by decide)⟩

/-- C10: calling `get_random_quote` with the empty string behaves exactly like
calling it with no topic, both at the service and the storage layer: the empty
string is falsy in `if topic_name:`, so no per-topic filter applies. -/
theorem C10_empty_topic_samples_all (s : DBState) (k : Nat) :
    QuoteGenerator.get_random_quote s (some "") k
      = QuoteGenerator.get_random_quote s none k ∧
    Database.get_random_quote s (some "") k = Database.get_random_quote s none k :=
  ⟨rfl, rfl⟩

lemma quotesFKb_iff {s : DBState} :
    quotesFKb s = true ↔ ∀ q ∈ s.quotes, ∃ t ∈ s.topics, t.id = q.topic_id := by
  unfold quotesFKb
  rw [List.all_eq_true]
  constructor
  · intro h q hq
    obtain ⟨t, ht, hb⟩ := List.any_eq_true.mp (h q hq)
    exact ⟨t, ht, by simpa using hb⟩
  · intro h q hq
    obtain ⟨t, ht, he⟩ := h q hq
    exact List.any_eq_true.mpr ⟨t, ht, by simp [he]⟩

lemma applyOp_preserves_fk {s : DBState} (op : ServiceOp)
    (hs : quotesFKb s = true) : quotesFKb (applyOp s op) = true := by
  cases op with
  | addQuote topic content =>
      by_cases h1 : topic = "" ∨ pyStrip topic = ""
      · have hst : applyOp s (.addQuote topic content) = s := by
          show (QuoteGenerator.add_quote s topic content).2 = s
          unfold QuoteGenerator.add_quote
          rw [if_pos h1]
        rw [hst]
        exact hs
      · by_cases h2 : content = "" ∨ pyStrip content = ""
        · have hst : applyOp s (.addQuote topic content) = s := by
            show (QuoteGenerator.add_quote s topic content).2 = s
            unfold QuoteGenerator.add_quote
            rw [if_neg h1, if_pos h2]
          rw [hst]
          exact hs
        · have ht : pyStrip topic ≠ "" := fun hh => h1 (Or.inr hh)
          have hc : pyStrip content ≠ "" := fun hh => h2 (Or.inr hh)
          obtain ⟨tr, newq, hok, hquotes, htopics, htr, hqt, hqc, hname⟩ :=
            add_quote_ok_spec (s := s) ht hc
          show quotesFKb (QuoteGenerator.add_quote s topic content).2 = true
          rw [quotesFKb_iff]
          intro q hq
          rw [hquotes, List.mem_append] at hq
          rcases hq with hq | hq
          · obtain ⟨t0, ht0, he⟩ := quotesFKb_iff.mp hs q hq
            refine ⟨t0, ?_, he⟩
            rcases htopics with h | h
            · rw [h]
              exact ht0
            · rw [h]
              exact List.mem_append_left _ ht0
          · rw [List.mem_singleton] at hq
            subst hq
            exact ⟨tr, htr, hqt.symm⟩
  | getQuotesByTopic t =>
      show quotesFKb (QuoteGenerator.get_quotes_by_topic s t).2 = true
      rw [get_quotes_state]
      exact hs
  | getRandomQuote t k =>
      show quotesFKb (QuoteGenerator.get_random_quote s t k).2 = true
      unfold QuoteGenerator.get_random_quote
      cases h : Database.get_random_quote s t k
      · exact hs
      · exact hs
  | getTopics => exact hs
  | getActivityLog => exact hs
  | getActivityStats => exact hs

lemma runOps_preserves_fk (ops : List ServiceOp) :
    ∀ s : DBState, quotesFKb s = true → quotesFKb (runOps s ops) = true := by
  induction ops with
  | nil => exact fun s hs => hs
  | cons op rest ih => exact fun s hs => ih _ (applyOp_preserves_fk op hs)

/-- C9 (amended): starting from any state satisfying referential integrity
(such as the seeded initial state), any sequence of exposed service operations
preserves it: every quote's `topic_id` references an existing topic row.  The
storage-level `Database.add_quote` preserves it only when the given `topic_id`
references an existing topic, as the service layer guarantees; for an arbitrary
integer it does not (the schema's foreign key is not enforced at runtime). -/
theorem C9_referential_integrity (s : DBState) (ops : List ServiceOp)
    (tid : Nat) (content : String) (hs : quotesFKb s = true) :
    quotesFKb (runOps s ops) = true ∧
    ((∃ t ∈ s.topics, t.id = tid) →
      quotesFKb (Database.add_quote s tid content).2 = true) := by
  refine ⟨runOps_preserves_fk ops s hs, ?_⟩
  rintro ⟨t, ht, hid⟩
  rw [quotesFKb_iff]
  intro q hq
  rw [add_quote_quotes, List.mem_append] at hq
  rcases hq with hq | hq
  · obtain ⟨t0, ht0, he⟩ := quotesFKb_iff.mp hs q hq
    refine ⟨t0, ?_, he⟩
    rw [add_quote_topics]
    exact ht0
  · rw [List.mem_singleton] at hq
    subst hq
    refine ⟨t, ?_, hid⟩
    rw [add_quote_topics]
    exact ht

/-- Counterexample to C9 as stated: the storage-level `Database.add_quote` does
not enforce the foreign key — inserting a quote with the dangling `topic_id`
999 into a store satisfying the invariant produces a store violating it. -/
theorem C9_counterexample :
    quotesFKb emptyDB = true ∧
    quotesFKb (Database.add_quote emptyDB 999 "x").2 = false :=
  ⟨rfl, rfl⟩

/-- Witness for C9 at the seeded initial state, a two-operation sequence, and
the existing topic id 1. -/
theorem C9_referential_integrity_witness :
    quotesFKb initDB = true ∧
    (∃ t ∈ initDB.topics, t.id = 1) ∧
    quotesFKb (runOps initDB
      [ServiceOp.addQuote "Тест" "Цитата", ServiceOp.getRandomQuote none 0]) = true ∧
    quotesFKb (Database.add_quote initDB 1 "x").2 = true := by
  have h := C9_referential_integrity initDB
    [ServiceOp.addQuote "Тест" "Цитата", ServiceOp.getRandomQuote none 0] 1 "x"
    (by decide)
  exact ⟨by decide, ⟨⟨1, "Наука", 0⟩, by decide, rfl⟩, h.1,
    h.2 ⟨⟨1, "Наука", 0⟩, by decide, rfl⟩⟩

end Lab3
